import Mathlib

/-
Verification development for the Attorney-Fetcher repository (src/app.py).

The pure decision logic of the program is embedded shallowly:
  - the defendant classifier is_company            (src/app.py lines 182-249)
  - the main-defendant selector find_main_defendant (src/app.py lines 251-266)
  - the case-number parsing parse_case_number       (src/app.py lines 22-46)
  - the service resolver find_proof_of_service_fast (src/app.py lines 405-477)
    together with extract_service_details_fast      (src/app.py lines 479-514)
  - the attorney-record projector extract_attorney_data (src/app.py lines 270-371)

Python strings are modelled as Lean String / List Char (the data is ASCII
court text).  Python regular-expression searches that the source performs are
compiled by hand into executable character-list scanners; each scanner is
documented with the regex it implements.  Browser/driver interaction is out of
scope: the environment supplies the scraped defendant names, the docket rows
per delivery-method category, and the label/value cell texts of an expanded
row.  A row whose expand/read/collapse cycle fails (any raised fault) is
modelled as RowOutcome.fault.  Clock checkpoints of extract_attorney_data are
modelled as three boolean flags, one per checkpoint in source order.
-/

/-! ## Basic character and string utilities -/

/-- Python whitespace for str.strip, str.split and the regex class \s. -/
def isPySpace (c : Char) : Bool :=
  c == ' ' || c == '\t' || c == '\n' || c == '\r' || c == '\x0B' || c == '\x0C'

/-- Word characters of the regex \b boundary (ASCII \w). -/
def wordChar (c : Char) : Bool :=
  c.isAlpha || c.isDigit || c == '_'

/-- Python str.strip(): remove leading and trailing whitespace. -/
def pyStrip (l : List Char) : List Char :=
  ((l.dropWhile isPySpace).reverse.dropWhile isPySpace).reverse

/-- str.strip() on a String. -/
def pyStripStr (s : String) : String :=
  String.mk (pyStrip s.data)

/-- Python str.lower() for ASCII text. -/
def lowerChars (l : List Char) : List Char :=
  l.map Char.toLower

/-- str.lower() on a String. -/
def pyLower (s : String) : String :=
  String.mk (lowerChars s.data)

/-- Number of occurrences of a character, Python str.count for one char. -/
def countChar (c : Char) (l : List Char) : Nat :=
  (l.filter (fun x => x == c)).length

/-- Number of chunks of Python str.split() (split on whitespace runs,
empty chunks discarded).  The boolean says whether we are inside a chunk. -/
def tokenCountAux : List Char → Bool → Nat
  | [], _ => 0
  | c :: rest, inTok =>
    if isPySpace c then tokenCountAux rest false
    else if inTok then tokenCountAux rest true
    else 1 + tokenCountAux rest true

/-- len(name.split()) of Python. -/
def tokenCount (l : List Char) : Nat :=
  tokenCountAux l false

/-- Remove a literal prefix, returning the remainder on success. -/
def stripPrefixChars : List Char → List Char → Option (List Char)
  | [], rest => some rest
  | _ :: _, [] => none
  | a :: w, b :: s => if a == b then stripPrefixChars w s else none

/-- Python substring containment: does w occur contiguously inside s. -/
def containsSub (w : List Char) : List Char → Bool
  | [] => (stripPrefixChars w []).isSome
  | c :: rest => (stripPrefixChars w (c :: rest)).isSome || containsSub w rest

/-- Python `a in b` on strings. -/
def pyIn (a b : String) : Bool :=
  containsSub a.data b.data

/-- Python '|'.join-style join with a separator string. -/
def joinWith (sep : String) : List String → String
  | [] => ""
  | [x] => x
  | x :: y :: rest => x ++ sep ++ joinWith sep (y :: rest)

/-- Split a character list at every occurrence of the character c
(Python str.split(c): always at least one, possibly empty, chunk). -/
def splitOnChar (c : Char) : List Char → List (List Char)
  | [] => [[]]
  | a :: rest =>
    if a == c then [] :: splitOnChar c rest
    else
      match splitOnChar c rest with
      | [] => [[a]]
      | h :: t => (a :: h) :: t

/-! ## Word-boundary regex scanners

The classifier regex of src/app.py lines 184-233 is an alternation of
case-insensitive patterns.  All of them fall into three shapes, compiled
here into three scanners over the lowercased input:

  - a literal cue bracketed by word boundaries \b w \b where w starts and
    ends with a word character (this covers the plain alternation groups,
    and also the optional-dot patterns such as l\.?l\.?c\.? once every
    combination of internal dots is enumerated as its own literal; the
    trailing dot-then-boundary is equivalent to requiring a non-word
    character or the end of the string after the last word character,
    because a dot is itself a non-word character);
  - a literal ending in a dot followed by \b, which requires a word
    character immediately after the final dot (the u\.s\. and u\.s\.a\.
    alternatives);
  - a bare substring with no boundary at all (unknown spouse, unknown
    tenant, unknown occupant, john doe, jane doe, et al).
-/

/-- After a cue ending in a word character, \b holds exactly when the string
ends or the next character is not a word character. -/
def endBoundaryOk : List Char → Bool
  | [] => true
  | c :: _ => !wordChar c

/-- After a cue ending in a dot, \b holds exactly when a word character
follows immediately. -/
def wordAfterOk : List Char → Bool
  | [] => false
  | c :: _ => wordChar c

/-- Does the word-boundary cue w match exactly at the head of s. -/
def cueAtWB (w s : List Char) : Bool :=
  match stripPrefixChars w s with
  | some rest => endBoundaryOk rest
  | none => false

/-- Does the dot-terminated cue w match exactly at the head of s. -/
def cueAtDot (w s : List Char) : Bool :=
  match stripPrefixChars w s with
  | some rest => wordAfterOk rest
  | none => false

/-- Scan all positions of s for a head-match of f; bOk carries whether the
word boundary before the current position holds (the previous character is
not a word character, or we are at the start). -/
def scanCue (f : List Char → Bool) (bOk : Bool) : List Char → Bool
  | [] => bOk && f []
  | c :: rest => (bOk && f (c :: rest)) || scanCue f (!wordChar c) rest

/-- re.search of \b w \b (w starting and ending in a word character). -/
def containsWordB (w s : List Char) : Bool :=
  scanCue (cueAtWB w) true s

/-- re.search of \b w \b for a cue w ending in a dot. -/
def containsWordDot (w s : List Char) : Bool :=
  scanCue (cueAtDot w) true s

/-! ## Defendant classifier (src/app.py lines 182-249) -/

/-- Lexical cues matched between word boundaries, in source order.  The
optional-dot patterns l\.?l\.?c\.?, l\.?l\.?p\.?, p\.?c\.? and
d\.?b\.?a\.? are expanded into all their dot placements (the fully dotless
variants coincide with cues that already appear and are listed once). -/
def wbCues : List (List Char) := [
  "llc".data, "inc".data, "corp".data, "ltd".data, "llp".data, "lp".data, "plc".data,
  "l.lc".data, "ll.c".data, "l.l.c".data,
  "l.lp".data, "ll.p".data, "l.l.p".data,
  "limited".data, "incorporated".data, "corporation".data,
  "pc".data, "p.c".data,
  "dba".data, "d.ba".data, "db.a".data, "d.b.a".data,
  "bank".data, "trust company".data, "banking".data, "financial".data, "credit union".data,
  "investment".data, "investments".data, "fund".data, "capital".data, "securities".data, "wealth".data,
  "mortgage".data, "loan".data, "finance".data, "lending".data, "leasing".data,
  "company".data, "companies".data, "group".data, "associates".data,
  "partners".data, "properties".data, "solutions".data, "systems".data,
  "enterprises".data, "ventures".data, "industries".data,
  "holdings".data, "global".data, "international".data,
  "realty".data, "construction".data, "development".data,
  "management".data, "consulting".data, "services".data,
  "agency".data, "firm".data, "bureau".data, "institute".data,
  "foundation".data, "association".data, "society".data, "alliance".data,
  "network".data, "organization".data, "federation".data, "coalition".data,
  "committee".data, "commission".data, "authority".data, "council".data,
  "department".data, "division".data, "branch".data, "unit".data,
  "school".data, "university".data, "college".data, "academy".data,
  "hospital".data, "clinic".data, "medical".data, "healthcare".data,
  "center".data, "centre".data, "laboratory".data,
  "church".data, "ministry".data, "temple".data, "mosque".data,
  "charity".data, "nonprofit".data, "ngo".data,
  "county".data, "city".data, "state".data, "federal".data,
  "united states".data, "usa".data, "us".data]

/-- The u\.s\.a\. and u\.s\. alternatives, whose trailing dot before \b
demands a word character right after. -/
def dotCues : List (List Char) :=
  ["u.s.a.".data, "u.s.".data]

/-- The boundary-free substring cues of the catalogue. -/
def subCues : List (List Char) :=
  ["unknown spouse".data, "unknown tenant".data, "unknown occupant".data,
   "john doe".data, "jane doe".data, "et al".data]

/-- re.search(pattern, name, re.IGNORECASE) of the joined company catalogue,
applied to the lowercased name. -/
def companySearch (l : List Char) : Bool :=
  wbCues.any (fun w => containsWordB w l)
    || dotCues.any (fun w => containsWordDot w l)
    || subCues.any (fun w => containsSub w l)

/-- The four structural company indicators of src/app.py lines 242-247:
an ampersand, more than one comma, any digit, more than four
whitespace-separated tokens. -/
def structuralCue (name : String) : Bool :=
  decide (0 < countChar '&' name.data)
    || decide (1 < countChar ',' name.data)
    || name.data.any Char.isDigit
    || decide (4 < tokenCount name.data)

/-- is_company of src/app.py lines 182-249: lexical catalogue first, then
the structural indicators. -/
def is_company (name : String) : Bool :=
  if companySearch (lowerChars name.data) then true
  else structuralCue name

/-! ## Main-defendant selector (src/app.py lines 251-266) -/

/-- find_main_defendant: first non-company name, else the first name, else
the sentinel. -/
def find_main_defendant (defendants : List String) : String :=
  match defendants with
  | [] => "No defendants found"
  | d :: ds =>
    match (d :: ds).filter (fun n => !(is_company n)) with
    | [] => d
    | x :: _ => x

/-! ## Case-number parsing (src/app.py lines 22-46) -/

/-- One attempt of the bracket-removal regex \s*\([^)]*\) at the head of s:
consume a maximal whitespace run, an opening parenthesis, a maximal run of
non-closing characters and the closing parenthesis. -/
def tryMatchBr (s : List Char) : Option (List Char) :=
  match s.dropWhile isPySpace with
  | [] => none
  | c :: r =>
    if c == '(' then
      match r.dropWhile (fun x => !(x == ')')) with
      | [] => none
      | d :: u => if d == ')' then some u else none
    else none

/-- Fuelled scan of re.sub(r'\s*\([^)]*\)', '', s): at each position try the
pattern; on a match continue after it, otherwise keep one character and move
on.  Each successful match consumes at least two characters, so fuel equal to
the length of the list always suffices and the fuel-exhausted arm is never
reached for the intended fuel. -/
def removeBracketedFuel : Nat → List Char → List Char
  | 0, l => l
  | _ + 1, [] => []
  | fuel + 1, c :: rest =>
    match tryMatchBr (c :: rest) with
    | some u => removeBracketedFuel fuel u
    | none => c :: removeBracketedFuel fuel rest

/-- re.sub(r'\s*\([^)]*\)', '', s). -/
def removeBracketed (s : List Char) : List Char :=
  removeBracketedFuel s.length s

/-- The cleaned case number: str(s).strip() then bracket removal. -/
def cleanCase (s : String) : List Char :=
  removeBracketed (pyStrip s.data)

/-- The parsed case-number dictionary of parse_case_number. -/
structure CaseId where
  year : String
  case_type : String
  sequence : String
  original : String
deriving DecidableEq, Repr

/-- Left zero padding of str.zfill(7) for a digit string. -/
def zfill7 (l : List Char) : List Char :=
  List.replicate (7 - l.length) '0' ++ l

/-- Full-match test of the anchored pattern of line 31,
r'^(\d{2})([A-Z]{2})(\d+)$': two ASCII digits, two ASCII capitals, then a
nonempty run of digits to the end. -/
def casePattern : List Char → Bool
  | a :: b :: c :: d :: rest =>
    a.isDigit && b.isDigit && c.isUpper && d.isUpper
      && !rest.isEmpty && rest.all Char.isDigit
  | _ => false

/-- The group extraction of the regex match on a cleaned case number. -/
def parseClean : List Char → Option (String × String × String)
  | a :: b :: c :: d :: rest =>
    if a.isDigit && b.isDigit && c.isUpper && d.isUpper
        && !rest.isEmpty && rest.all Char.isDigit
    then some (String.mk [a, b], String.mk [c, d], String.mk (zfill7 rest))
    else none
  | _ => none

/-- parse_case_number of src/app.py lines 22-46.  The pandas NaN guard has no
counterpart for a genuine string; the falsy guard is the empty-string test. -/
def parse_case_number (s : String) : Option CaseId :=
  if s = "" then none
  else
    match parseClean (cleanCase s) with
    | some (y, t, q) =>
      some { year := y, case_type := t, sequence := q, original := s }
    | none => none

/-! ## Claim C7: case-number parsing -/

/-- Group extraction agrees with the anchored pattern on any cleaned list. -/
theorem parseClean_spec (c : List Char) :
    parseClean c
      = (if casePattern c then
           some (String.mk (c.take 2), String.mk ((c.drop 2).take 2),
                 String.mk (zfill7 (c.drop 4)))
         else none) := by
  match c with
  | [] => rfl
  | [a] => rfl
  | [a, b] => rfl
  | [a, b, d] => rfl
  | a :: b :: d :: e :: rest => rfl

/-- C7 counterexample: the claim quantifies over strings whose
bracket-stripped form matches the anchored pattern and says every other
string parses to nothing.  The input with a leading space has no brackets,
so its bracket-stripped form keeps the space and does not match the
pattern, yet parse_case_number still returns a parse because the source
strips whitespace before removing brackets. -/
theorem parse_case_number_trim_counterexample :
    casePattern (removeBracketed (" 23CV5681").data) = false
      ∧ parse_case_number " 23CV5681"
          = some { year := "23", case_type := "CV", sequence := "0005681",
                   original := " 23CV5681" } := by
  constructor
  · rfl
  · rfl

/-- C7 (amended): for every string whose form after leading and trailing
whitespace trimming and bracket-content removal matches the anchored
pattern of two digits, two capital letters and a nonempty digit run,
parsing yields year equal to the first two digits, case type equal to the
next two letters and sequence equal to the remaining digits zero-padded to
seven; for every other string parsing yields no result. -/
theorem parse_case_number_spec (s : String) :
    parse_case_number s
      = (if casePattern (cleanCase s) then
           some { year := String.mk ((cleanCase s).take 2),
                  case_type := String.mk (((cleanCase s).drop 2).take 2),
                  sequence := String.mk (zfill7 ((cleanCase s).drop 4)),
                  original := s }
         else none) := by
  unfold parse_case_number
  by_cases hs : s = ""
  · subst hs
    rfl
  · rw [if_neg hs, parseClean_spec]
    by_cases hc : casePattern (cleanCase s) = true
    · rw [if_pos hc, if_pos hc]
    · rw [if_neg hc, if_neg hc]

/-! ## Claim C2: the classifier -/

/-- A positive lexical search makes the classifier answer Organization. -/
theorem is_company_of_search {name : String}
    (h : companySearch (lowerChars name.data) = true) : is_company name = true := by
  simp [is_company, h]

/-- Any word-boundary cue of the catalogue found in the lowercased name
makes the lexical search positive. -/
theorem search_of_wbCue {w l : List Char} (hw : w ∈ wbCues)
    (h : containsWordB w l = true) : companySearch l = true := by
  have hany : wbCues.any (fun v => containsWordB v l) = true :=
    List.any_eq_true.mpr ⟨w, hw, h⟩
  simp [companySearch, hany]

/-- Any boundary-free substring cue found in the lowercased name makes the
lexical search positive. -/
theorem search_of_subCue {w l : List Char} (hw : w ∈ subCues)
    (h : containsSub w l = true) : companySearch l = true := by
  have hany : subCues.any (fun v => containsSub v l) = true :=
    List.any_eq_true.mpr ⟨w, hw, h⟩
  simp [companySearch, hany]

/-- C2 counterexample: the claim says every name containing the letters LLC
classifies as Organization, but the containment the code tests is delimited
by word boundaries.  The single word Trellco contains llc with no boundary
and trips no other cue or structural heuristic, so the classifier answers
Individual. -/
theorem classifier_substring_counterexample :
    containsSub ("llc".data) (lowerChars ("Trellco").data) = true
      ∧ is_company "Trellco" = false := by
  constructor
  · rfl
  · rfl

/-- C2 (amended): the classifier answers Organization exactly when the
lexical catalogue search or one of the four structural heuristics is
positive, and Individual otherwise; in particular names containing LLC, Inc
or Bank as word-boundary-delimited words classify as Organization, names
containing the substring John Doe case-insensitively classify as
Organization, names of more than four whitespace-separated tokens classify
as Organization, and the plain two-token human name Jane Smith classifies
as Individual. -/
theorem classifier_organization_spec :
    (∀ name : String,
        is_company name = (companySearch (lowerChars name.data) || structuralCue name))
    ∧ (∀ name : String,
        containsWordB ("llc".data) (lowerChars name.data) = true → is_company name = true)
    ∧ (∀ name : String,
        containsWordB ("inc".data) (lowerChars name.data) = true → is_company name = true)
    ∧ (∀ name : String,
        containsWordB ("bank".data) (lowerChars name.data) = true → is_company name = true)
    ∧ (∀ name : String,
        containsSub ("john doe".data) (lowerChars name.data) = true → is_company name = true)
    ∧ (∀ name : String, 4 < tokenCount name.data → is_company name = true)
    ∧ is_company "Jane Smith" = false := by
  refine ⟨?_, ?_, ?_, ?_, ?_, ?_, ?_⟩
  · intro name
    cases h : companySearch (lowerChars name.data) with
    | true => simp [is_company, h]
    | false => simp [is_company, h]
  · intro name h
    exact is_company_of_search (search_of_wbCue (by decide) h)
  · intro name h
    exact is_company_of_search (search_of_wbCue (by decide) h)
  · intro name h
    exact is_company_of_search (search_of_wbCue (by decide) h)
  · intro name h
    exact is_company_of_search (search_of_subCue (by decide) h)
  · intro name h
    have hd : decide (4 < tokenCount name.data) = true := decide_eq_true h
    have hs : structuralCue name = true := by
      unfold structuralCue
      rw [hd]
      simp only [Bool.or_true]
    cases hc : companySearch (lowerChars name.data) with
    | true => simp [is_company, hc]
    | false => simp [is_company, hc, hs]
  · rfl

/-- C2 witness: the amended implications applied at concrete names. -/
theorem classifier_organization_spec_witness :
    is_company "ABC LLC" = true ∧ is_company "XYZ Inc" = true
      ∧ is_company "First Bank" = true ∧ is_company "John Doe" = true
      ∧ is_company "Alpha Beta Gamma Delta Epsilon" = true :=
  ⟨classifier_organization_spec.2.1 "ABC LLC" (by decide),
   classifier_organization_spec.2.2.1 "XYZ Inc" (by decide),
   classifier_organization_spec.2.2.2.1 "First Bank" (by decide),
   classifier_organization_spec.2.2.2.2.1 "John Doe" (by decide),
   classifier_organization_spec.2.2.2.2.2.1 "Alpha Beta Gamma Delta Epsilon" (by decide)⟩

/-! ## Claim C3: main-defendant selection -/

/-- find? is the head of the filtered list. -/
theorem find_eq_filterHead (p : String → Bool) (l : List String) :
    l.find? p = (l.filter p).head? := by
  induction l with
  | nil => rfl
  | cons a t ih =>
    cases hp : p a with
    | true =>
      rw [List.find?_cons_of_pos _ hp, List.filter_cons_of_pos hp]
      rfl
    | false =>
      rw [List.find?_cons_of_neg _ (by simp [hp]),
        List.filter_cons_of_neg (by simp [hp]), ih]

/-- The selector on a nonempty list is the first Individual name with the
head as fallback. -/
theorem find_main_defendant_cons (d : String) (ds : List String) :
    find_main_defendant (d :: ds)
      = (((d :: ds).find? (fun n => !(is_company n))).getD d) := by
  simp only [find_main_defendant]
  rw [find_eq_filterHead]
  cases hf : (d :: ds).filter (fun n => !(is_company n)) with
  | nil => rfl
  | cons x xs => rfl

/-- C3: selection returns the first name the classifier marks Individual,
else the first name, else the sentinel on the empty list; the result is
always an element of the input or the sentinel. -/
theorem main_defendant_selection_spec :
    find_main_defendant [] = "No defendants found"
    ∧ (∀ (d : String) (ds : List String),
        find_main_defendant (d :: ds)
          = (((d :: ds).find? (fun n => !(is_company n))).getD d))
    ∧ (∀ ds : List String,
        find_main_defendant ds ∈ ds ∨ find_main_defendant ds = "No defendants found") := by
  refine ⟨rfl, find_main_defendant_cons, ?_⟩
  intro ds
  cases ds with
  | nil => exact Or.inr rfl
  | cons d t =>
    left
    rw [find_main_defendant_cons]
    cases hf : (d :: t).find? (fun n => !(is_company n)) with
    | none => simp
    | some x =>
      simp only [Option.getD_some]
      exact List.mem_of_find?_eq_some hf

/-! ## Service records (src/app.py lines 479-514)

A ServiceRecord models the Python dict built by
extract_service_details_fast: insertion-ordered with later writes winning,
which the first-match lookup over a most-recent-first association list
reproduces exactly.  The environment supplies, per docket row, either the
label/value cell texts of its expanded detail table (one pair per detail
row that has at least two cells) or a fault standing for any raised error
during the expand/read/collapse cycle. -/

abbrev ServiceRecord := List (String × String)

/-- dict assignment d[k] = v, most recent binding first. -/
def dictSet (d : ServiceRecord) (k v : String) : ServiceRecord :=
  (k, v) :: d.filter (fun p => !(p.fst == k))

/-- dict lookup d.get(k, ...) with default empty string. -/
def dictGet (d : ServiceRecord) (k : String) : String :=
  match d.find? (fun p => p.fst == k) with
  | some p => p.snd
  | none => ""

/-- One docket row as the resolver sees it. -/
inductive RowOutcome where
  | fault : RowOutcome
  | record : List (String × String) → RowOutcome

/-- Label normalization of line 501:
cells[0].text.strip().rstrip(':').lower().replace(" ", "_"). -/
def normLabel (l : List Char) : List Char :=
  (lowerChars (((pyStrip l).reverse.dropWhile (fun x => x == ':')).reverse)).map
    (fun c => if c == ' ' then '_' else c)

/-- extract_service_details_fast of src/app.py lines 479-514: a fault
yields nothing; otherwise the record starts with the delivery method and
adds service_ + normalized label per cell pair with a nonempty label,
values stripped. -/
def extract_service_details_fast (st : String) : RowOutcome → Option ServiceRecord
  | RowOutcome.fault => none
  | RowOutcome.record cells =>
    some (cells.foldl
      (fun d cell =>
        let lab := normLabel cell.fst.data
        if lab.isEmpty then d
        else dictSet d (String.mk ("service_".data ++ lab)) (pyStripStr cell.snd))
      [("service_delivery_method", st)])

/-! ## Service resolver (src/app.py lines 405-477) -/

/-- The primary-phase test of lines 444-445: the main defendant and the
served name are case-insensitive substrings of each other in either
direction. -/
def mutualSubstrCI (a b : String) : Bool :=
  pyIn (pyLower a) (pyLower b) || pyIn (pyLower b) (pyLower a)

/-- Primary-phase acceptance of a record for the main defendant. -/
def primaryMatch (main : String) (d : ServiceRecord) : Bool :=
  mutualSubstrCI main (dictGet d "service_name")

/-- Fallback-phase acceptance of lines 463-464: nonempty served name that
the classifier marks Individual. -/
def fallbackMatch (d : ServiceRecord) : Bool :=
  !(dictGet d "service_name" == "") && !(is_company (dictGet d "service_name"))

/-- STEP 1 loop of lines 437-451: first extractable record matching the
main defendant; extraction faults skip the candidate. -/
def phase1Scan (main st : String) : List RowOutcome → Option ServiceRecord
  | [] => none
  | row :: rest =>
    match extract_service_details_fast st row with
    | none => phase1Scan main st rest
    | some d => if primaryMatch main d then some d else phase1Scan main st rest

/-- STEP 2 loop of lines 456-470: first extractable record whose served
name is a nonempty Individual; extraction faults skip the candidate. -/
def phase2Scan (st : String) : List RowOutcome → Option ServiceRecord
  | [] => none
  | row :: rest =>
    match extract_service_details_fast st row with
    | none => phase2Scan st rest
    | some d => if fallbackMatch d then some d else phase2Scan st rest

/-- One delivery-method category of the loop body, lines 425-470: skip an
empty category, otherwise run the primary phase and then the fallback
phase over the first five rows. -/
def searchCategory (rows : List RowOutcome) (main st : String) : Option ServiceRecord :=
  if rows.isEmpty then none
  else
    match phase1Scan main st (rows.take 5) with
    | some d => some d
    | none => phase2Scan st (rows.take 5)

/-- The docket page: the rows the driver finds per delivery-method
category. -/
structure DocketPage where
  certifiedRows : List RowOutcome
  processRows : List RowOutcome

/-- The rows the XPath of line 425 returns for a given category name. -/
def DocketPage.rowsOf (page : DocketPage) (st : String) : List RowOutcome :=
  if st = "CERTIFIED MAIL" then page.certifiedRows
  else if st = "PROCESS SERVER" then page.processRows
  else []

/-- The loop over service_types of line 424. -/
def searchTypes (page : DocketPage) (main : String) : List String → Option ServiceRecord
  | [] => none
  | st :: rest =>
    match searchCategory (page.rowsOf st) main st with
    | some d => some d
    | none => searchTypes page main rest

/-- find_proof_of_service_fast of src/app.py lines 405-477 over the two
categories in source order. -/
def find_proof_of_service_fast (page : DocketPage) (main : String) : Option ServiceRecord :=
  searchTypes page main ["CERTIFIED MAIL", "PROCESS SERVER"]

/-! ## Phone extraction (src/app.py line 355)

The regex \(?\d{3}\)?[-.\s]?\d{3}[-.\s]?\d{4} is compiled into a
deterministic matcher: every optional element is a single non-digit
character followed by a mandatory digit, so the greedy choice to consume
it when present can never be backtracked into a successful skip, and
re.search returns the leftmost match. -/

/-- The separator class [-.\s]. -/
def isPhoneSep (c : Char) : Bool :=
  c == '-' || c == '.' || isPySpace c

/-- Consume exactly n digits, returning them and the remainder. -/
def takeDigitsN : Nat → List Char → Option (List Char × List Char)
  | 0, s => some ([], s)
  | _ + 1, [] => none
  | n + 1, c :: s =>
    if c.isDigit then
      match takeDigitsN n s with
      | some (d, r) => some (c :: d, r)
      | none => none
    else none

/-- Consume one optional character of the class p. -/
def consumeOpt (p : Char → Bool) : List Char → (List Char × List Char)
  | [] => ([], [])
  | c :: rest => if p c then ([c], rest) else ([], c :: rest)

/-- Match the phone pattern at the head of s, returning the matched text. -/
def matchPhoneAt (s : List Char) : Option (List Char) :=
  let (o1, s1) := consumeOpt (fun c => c == '(') s
  match takeDigitsN 3 s1 with
  | none => none
  | some (d1, s2) =>
    let (o2, s3) := consumeOpt (fun c => c == ')') s2
    let (o3, s4) := consumeOpt isPhoneSep s3
    match takeDigitsN 3 s4 with
    | none => none
    | some (d2, s5) =>
      let (o4, s6) := consumeOpt isPhoneSep s5
      match takeDigitsN 4 s6 with
      | none => none
      | some (d3, _) => some (o1 ++ d1 ++ o2 ++ o3 ++ d2 ++ o4 ++ d3)

/-- re.search of the phone pattern: the leftmost match. -/
def phoneSearch : List Char → Option (List Char)
  | [] => none
  | c :: rest =>
    match matchPhoneAt (c :: rest) with
    | some m => some m
    | none => phoneSearch rest

/-! ## Attorney-record projector (src/app.py lines 270-371) -/

/-- The line decomposition of line 348:
attorney_address.replace(chr(10), chr(124)).split(chr(124)). -/
def splitAddrLines (s : String) : List String :=
  (splitOnChar '|' (s.data.map (fun c => if c == '\n' then '|' else c))).map String.mk

/-- The service_match label assignment of lines 337-343. -/
def matchLabel (main served : String) : String :=
  if mutualSubstrCI main served then "Main Defendant" else "Other Human Defendant"

/-- The attorney_data dict of lines 275-291 with its initial values. -/
structure AttorneyData where
  attorney_name : String := ""
  attorney_firm : String := ""
  attorney_address : String := ""
  attorney_phone : String := ""
  service_type : String := ""
  service_date : String := ""
  certified_mail_no : String := ""
  defendant_name : String := ""
  defendant_address : String := ""
  service_status : String := ""
  main_defendant : String := ""
  all_defendants : String := ""
  defendant_count : Nat := 0
  service_match : String := ""
  extraction_status : String := "Not Found"
deriving DecidableEq, Repr

/-- extract_attorney_data of src/app.py lines 270-371.  The three boolean
flags model the three elapsed-time checkpoints in source order (before
step 1, after the defendant scrape, before the service search); the
defendant list and the docket page model what the driver-facing scrapes
return. -/
def extract_attorney_data (tOverall tAfterDefendants tBeforeService : Bool)
    (defendants : List String) (page : DocketPage) : AttorneyData :=
  if tOverall then { extraction_status := "Timeout - Overall Process" }
  else if tAfterDefendants then { extraction_status := "Timeout - After Defendants" }
  else if defendants.isEmpty then { extraction_status := "No Defendants Found" }
  else
    let mainDef := find_main_defendant defendants
    let b1 : AttorneyData :=
      { all_defendants := joinWith "; " defendants,
        defendant_count := defendants.length,
        main_defendant := mainDef }
    if mainDef == "No defendants found" then
      { b1 with extraction_status := "No Defendants Found" }
    else if tBeforeService then
      { b1 with extraction_status := "Timeout - Before Service Search" }
    else
      match find_proof_of_service_fast page mainDef with
      | some d =>
        let served := dictGet d "service_name"
        let addr := dictGet d "service_attorney_address"
        let lines := splitAddrLines addr
        { b1 with
          service_type := dictGet d "service_delivery_method",
          defendant_name := served,
          attorney_name := dictGet d "service_attorney_name",
          service_match := matchLabel mainDef served,
          attorney_firm := if addr == "" then "" else pyStripStr (lines.headD ""),
          attorney_address :=
            if addr == "" then ""
            else if 1 < lines.length then pyStripStr (joinWith " " lines.tail)
            else "",
          attorney_phone :=
            if addr == "" then ""
            else
              match phoneSearch addr.data with
              | some m => String.mk m
              | none => "",
          extraction_status := "Found" }
      | none => { b1 with extraction_status := "No Service Records Found" }

/-! ## Claims C1, C4, C9, C10: the service resolver -/

/-- First-of-two choice used to state search priority. -/
def firstSome (a b : Option ServiceRecord) : Option ServiceRecord :=
  match a with
  | some d => some d
  | none => b

/-- The records the resolver can extract from the first five rows of a
category, in page order. -/
def extractedRecords (st : String) (rows : List RowOutcome) : List ServiceRecord :=
  (rows.take 5).filterMap (extract_service_details_fast st)

/-- Declarative description of one category: the first extracted record
passing the primary test, else the first passing the fallback test. -/
def categoryResult (main st : String) (rows : List RowOutcome) : Option ServiceRecord :=
  firstSome ((extractedRecords st rows).find? (fun d => primaryMatch main d))
            ((extractedRecords st rows).find? (fun d => fallbackMatch d))

/-- The primary scan is the first match over the extractable records. -/
theorem phase1Scan_eq (main st : String) (l : List RowOutcome) :
    phase1Scan main st l
      = (l.filterMap (extract_service_details_fast st)).find? (fun d => primaryMatch main d) := by
  induction l with
  | nil => rfl
  | cons r rest ih =>
    cases he : extract_service_details_fast st r with
    | none =>
      rw [List.filterMap_cons_none he]
      simp [phase1Scan, he, ih]
    | some d =>
      rw [List.filterMap_cons_some he]
      cases hp : primaryMatch main d with
      | true =>
        rw [List.find?_cons_of_pos _ hp]
        simp [phase1Scan, he, hp]
      | false =>
        rw [List.find?_cons_of_neg _ (by simp [hp])]
        simp [phase1Scan, he, hp, ih]

/-- The fallback scan is the first match over the extractable records. -/
theorem phase2Scan_eq (st : String) (l : List RowOutcome) :
    phase2Scan st l
      = (l.filterMap (extract_service_details_fast st)).find? (fun d => fallbackMatch d) := by
  induction l with
  | nil => rfl
  | cons r rest ih =>
    cases he : extract_service_details_fast st r with
    | none =>
      rw [List.filterMap_cons_none he]
      simp [phase2Scan, he, ih]
    | some d =>
      rw [List.filterMap_cons_some he]
      cases hp : fallbackMatch d with
      | true =>
        rw [List.find?_cons_of_pos _ hp]
        simp [phase2Scan, he, hp]
      | false =>
        rw [List.find?_cons_of_neg _ (by simp [hp])]
        simp [phase2Scan, he, hp, ih]

/-- One category of the search loop equals its declarative description. -/
theorem searchCategory_eq (rows : List RowOutcome) (main st : String) :
    searchCategory rows main st = categoryResult main st rows := by
  cases rows with
  | nil => rfl
  | cons r rest =>
    unfold searchCategory categoryResult extractedRecords
    rw [phase1Scan_eq, phase2Scan_eq]
    cases ((r :: rest).take 5).filterMap (extract_service_details_fast st)
        |>.find? (fun d => primaryMatch main d) with
    | some d => rfl
    | none => rfl

/-- The XPath category lookups reduced on the two literal category names. -/
theorem rowsOf_certified (page : DocketPage) :
    page.rowsOf "CERTIFIED MAIL" = page.certifiedRows := rfl

/-- The PROCESS SERVER category lookup. -/
theorem rowsOf_process (page : DocketPage) :
    page.rowsOf "PROCESS SERVER" = page.processRows := rfl

/-- C1: the resolver realizes the two-phase search in both categories: for
every main-defendant name it returns the first extractable CERTIFIED MAIL
record whose served name and the main defendant contain each other
case-insensitively, else the first extractable CERTIFIED MAIL record with
a nonempty served name the classifier marks Individual, else the same two
phases over PROCESS SERVER, and reports absence when all four searches
fail. -/
theorem resolver_two_phase_search (page : DocketPage) (main : String) :
    find_proof_of_service_fast page main
      = firstSome (categoryResult main "CERTIFIED MAIL" page.certifiedRows)
                  (categoryResult main "PROCESS SERVER" page.processRows) := by
  unfold find_proof_of_service_fast
  simp only [searchTypes]
  rw [rowsOf_certified, rowsOf_process, searchCategory_eq, searchCategory_eq]
  cases categoryResult main "CERTIFIED MAIL" page.certifiedRows with
  | some d => rfl
  | none =>
    cases categoryResult main "PROCESS SERVER" page.processRows with
    | some d => rfl
    | none => rfl

/-- Rows past the first five of a category never influence the search. -/
theorem searchCategory_take5 (rows : List RowOutcome) (main st : String) :
    searchCategory (rows.take 5) main st = searchCategory rows main st := by
  cases rows with
  | nil => rfl
  | cons r rest =>
    have h55 : ((r :: rest).take 5).take 5 = (r :: rest).take 5 := by
      rw [List.take_take, Nat.min_self]
    simp only [searchCategory]
    rw [h55]
    rfl

/-- C4: the resolver consults at most the first five rows of each of the
two categories, CERTIFIED MAIL strictly before PROCESS SERVER: truncating
both categories to five rows never changes the result, and a CERTIFIED
MAIL category hit is the final answer no matter what the PROCESS SERVER
rows hold. -/
theorem resolver_budget_bounds :
    (∀ (page : DocketPage) (main : String),
        find_proof_of_service_fast page main
          = find_proof_of_service_fast
              { certifiedRows := page.certifiedRows.take 5,
                processRows := page.processRows.take 5 } main)
    ∧ (∀ (page : DocketPage) (main : String) (d : ServiceRecord),
        searchCategory page.certifiedRows main "CERTIFIED MAIL" = some d →
        find_proof_of_service_fast page main = some d) := by
  constructor
  · intro page main
    unfold find_proof_of_service_fast
    simp only [searchTypes]
    rw [rowsOf_certified, rowsOf_process, rowsOf_certified, rowsOf_process]
    rw [searchCategory_take5, searchCategory_take5]
  · intro page main d h
    unfold find_proof_of_service_fast
    simp only [searchTypes]
    rw [rowsOf_certified, h]

/-- C4 witness: a matching first CERTIFIED MAIL row is returned. -/
theorem resolver_budget_bounds_witness :
    find_proof_of_service_fast
        { certifiedRows := [RowOutcome.record [("Name", "Jane Smith")]],
          processRows := [] } "Jane Smith"
      = some [("service_name", "Jane Smith"), ("service_delivery_method", "CERTIFIED MAIL")] :=
  resolver_budget_bounds.2
    { certifiedRows := [RowOutcome.record [("Name", "Jane Smith")]], processRows := [] }
    "Jane Smith"
    [("service_name", "Jane Smith"), ("service_delivery_method", "CERTIFIED MAIL")]
    (by rfl)

/-- C9: a candidate whose extraction fails contributes nothing to either
phase of a category scan: the scan result over any candidate sequence with
the faulty candidate spliced in equals the result without it. -/
theorem candidate_fault_containment :
    ∀ (main st : String) (r : RowOutcome) (pre post : List RowOutcome),
      extract_service_details_fast st r = none →
      phase1Scan main st (pre ++ r :: post) = phase1Scan main st (pre ++ post)
      ∧ phase2Scan st (pre ++ r :: post) = phase2Scan st (pre ++ post) := by
  intro main st r pre post h
  constructor
  · induction pre with
    | nil => simp [phase1Scan, h]
    | cons q qs ih =>
      cases he : extract_service_details_fast st q with
      | none => simp [phase1Scan, he, ih]
      | some d => simp [phase1Scan, he, ih]
  · induction pre with
    | nil => simp [phase2Scan, h]
    | cons q qs ih =>
      cases he : extract_service_details_fast st q with
      | none => simp [phase2Scan, he, ih]
      | some d => simp [phase2Scan, he, ih]

/-- C9 witness: a faulty first candidate is skipped and the scan finds the
record behind it. -/
theorem candidate_fault_containment_witness :
    phase1Scan "Jane Smith" "CERTIFIED MAIL"
        ([] ++ RowOutcome.fault :: [RowOutcome.record [("Name", "Jane Smith")]])
      = phase1Scan "Jane Smith" "CERTIFIED MAIL"
        ([] ++ [RowOutcome.record [("Name", "Jane Smith")]]) :=
  (candidate_fault_containment "Jane Smith" "CERTIFIED MAIL" RowOutcome.fault
    [] [RowOutcome.record [("Name", "Jane Smith")]] rfl).1

/-- The empty pattern is a substring of everything, as in Python. -/
theorem containsSub_nil (l : List Char) : containsSub [] l = true := by
  cases l with
  | nil => rfl
  | cons c rest => rfl

/-- Mutual case-insensitive containment always accepts the empty served
name. -/
theorem mutualSubstrCI_empty (a : String) : mutualSubstrCI a "" = true := by
  unfold mutualSubstrCI
  have h : pyIn (pyLower "") (pyLower a) = true := containsSub_nil (pyLower a).data
  rw [h, Bool.or_true]

/-- C10: a candidate record whose service_name field is absent or empty
always passes the primary-phase test, is returned by the primary scan when
it comes first, and is labeled Main Defendant by the projector. -/
theorem empty_service_name_primary_match :
    (∀ (main : String) (d : ServiceRecord),
        dictGet d "service_name" = "" → primaryMatch main d = true)
    ∧ (∀ (main st : String) (row : RowOutcome) (d : ServiceRecord) (rows : List RowOutcome),
        extract_service_details_fast st row = some d →
        dictGet d "service_name" = "" →
        phase1Scan main st (row :: rows) = some d)
    ∧ (∀ main : String, matchLabel main "" = "Main Defendant") := by
  have ha : ∀ (main : String) (d : ServiceRecord),
      dictGet d "service_name" = "" → primaryMatch main d = true := by
    intro main d h
    unfold primaryMatch
    rw [h]
    exact mutualSubstrCI_empty main
  refine ⟨ha, ?_, ?_⟩
  · intro main st row d rows he h
    simp only [phase1Scan, he]
    rw [ha main d h]
    rfl
  · intro main
    unfold matchLabel
    rw [mutualSubstrCI_empty]
    rfl

/-! ## Claims C5, C6, C8: the attorney-record projector -/

/-- The line splitter never returns an empty chunk list. -/
theorem splitOnChar_ne_nil (c : Char) (l : List Char) : splitOnChar c l ≠ [] := by
  cases l with
  | nil => simp [splitOnChar]
  | cons a rest =>
    cases hb : (a == c) with
    | true => simp [splitOnChar, hb]
    | false =>
      simp only [splitOnChar, hb]
      cases splitOnChar c rest with
      | nil => simp
      | cons x xs => simp

/-- The address decomposition always yields at least one line. -/
theorem splitAddrLines_ne_nil (s : String) : splitAddrLines s ≠ [] := by
  unfold splitAddrLines
  intro h
  rw [List.map_eq_nil_iff] at h
  exact splitOnChar_ne_nil _ _ h

/-- C5: with the clock checkpoints passed and a usable defendant list, the
extraction status is Found exactly when the resolver produced a record
(whatever its attorney-name value, which the projector copies with an
empty-string default), and is No Service Records Found with all four
attorney fields left empty exactly when the resolver reported absence. -/
theorem extraction_found_status_spec :
    ∀ (ds : List String) (page : DocketPage),
      ds.isEmpty = false →
      (find_main_defendant ds == "No defendants found") = false →
      (((extract_attorney_data false false false ds page).extraction_status = "Found")
          ↔ (find_proof_of_service_fast page (find_main_defendant ds)).isSome = true)
      ∧ (((extract_attorney_data false false false ds page).extraction_status
            = "No Service Records Found")
          ↔ find_proof_of_service_fast page (find_main_defendant ds) = none)
      ∧ (find_proof_of_service_fast page (find_main_defendant ds) = none →
          (extract_attorney_data false false false ds page).attorney_name = ""
          ∧ (extract_attorney_data false false false ds page).attorney_firm = ""
          ∧ (extract_attorney_data false false false ds page).attorney_address = ""
          ∧ (extract_attorney_data false false false ds page).attorney_phone = "") := by
  intro ds page hde hms
  have hs1 : ("Found" : String) ≠ "No Service Records Found" := by decide
  have hs2 : ("No Service Records Found" : String) ≠ "Found" := by decide
  cases hr : find_proof_of_service_fast page (find_main_defendant ds) with
  | some d => simp [extract_attorney_data, hde, hms, hr, hs1]
  | none => simp [extract_attorney_data, hde, hms, hr, hs2]

/-- C5 witness: a record with no attorney-name detail still yields Found,
with the attorney name empty. -/
theorem extraction_found_status_spec_witness :
    (extract_attorney_data false false false ["Jane Smith"]
        { certifiedRows := [RowOutcome.record [("Name", "Jane Smith")]],
          processRows := [] }).extraction_status = "Found"
    ∧ (extract_attorney_data false false false ["Jane Smith"]
        { certifiedRows := [RowOutcome.record [("Name", "Jane Smith")]],
          processRows := [] }).attorney_name = "" :=
  ⟨((extraction_found_status_spec ["Jane Smith"]
      { certifiedRows := [RowOutcome.record [("Name", "Jane Smith")]],
        processRows := [] } (by rfl) (by decide)).1).mpr (by rfl),
   by rfl⟩

/-- C6: when the run reaches a resolved record, the service-match label is
Main Defendant exactly when the served name and the main defendant contain
each other case-insensitively and Other Human Defendant otherwise; and in
every terminal outcome other than Found the service-match field keeps its
empty sentinel. -/
theorem service_match_kind_spec :
    (∀ (ds : List String) (page : DocketPage) (d : ServiceRecord),
        ds.isEmpty = false →
        (find_main_defendant ds == "No defendants found") = false →
        find_proof_of_service_fast page (find_main_defendant ds) = some d →
        (extract_attorney_data false false false ds page).service_match
          = (if mutualSubstrCI (find_main_defendant ds) (dictGet d "service_name")
             then "Main Defendant" else "Other Human Defendant"))
    ∧ (∀ (t1 t2 t3 : Bool) (ds : List String) (page : DocketPage),
        (extract_attorney_data t1 t2 t3 ds page).extraction_status ≠ "Found" →
        (extract_attorney_data t1 t2 t3 ds page).service_match = "") := by
  constructor
  · intro ds page d hde hms hr
    simp [extract_attorney_data, hde, hms, hr, matchLabel]
  · intro t1 t2 t3 ds page h
    cases t1 with
    | true => rfl
    | false =>
      cases t2 with
      | true => rfl
      | false =>
        cases hde : ds.isEmpty with
        | true => simp [extract_attorney_data, hde]
        | false =>
          cases hms : (find_main_defendant ds == "No defendants found") with
          | true => simp [extract_attorney_data, hde, hms]
          | false =>
            cases t3 with
            | true => simp [extract_attorney_data, hde, hms]
            | false =>
              cases hr : find_proof_of_service_fast page (find_main_defendant ds) with
              | some d =>
                exfalso
                apply h
                simp [extract_attorney_data, hde, hms, hr]
              | none => simp [extract_attorney_data, hde, hms, hr]

/-- C6 witness: a matching served name is labeled through the mutual
containment test, and a timed-out case keeps the empty label. -/
theorem service_match_kind_spec_witness :
    (extract_attorney_data false false false ["Jane Smith"]
        { certifiedRows := [RowOutcome.record [("Name", "Jane Smith")]],
          processRows := [] }).service_match
      = (if mutualSubstrCI (find_main_defendant ["Jane Smith"])
            (dictGet [("service_name", "Jane Smith"),
                      ("service_delivery_method", "CERTIFIED MAIL")] "service_name")
         then "Main Defendant" else "Other Human Defendant")
    ∧ (extract_attorney_data true false false ["Jane Smith"]
        { certifiedRows := [RowOutcome.record [("Name", "Jane Smith")]],
          processRows := [] }).service_match = "" :=
  ⟨service_match_kind_spec.1 ["Jane Smith"]
      { certifiedRows := [RowOutcome.record [("Name", "Jane Smith")]],
        processRows := [] }
      [("service_name", "Jane Smith"), ("service_delivery_method", "CERTIFIED MAIL")]
      (by rfl) (by decide) (by rfl),
   service_match_kind_spec.2 true false false ["Jane Smith"]
      { certifiedRows := [RowOutcome.record [("Name", "Jane Smith")]],
        processRows := [] }
      (by decide)⟩

/-- The lines of a text under the claim, where only a newline separates
lines. -/
def newlineLines (s : String) : List String :=
  (splitOnChar '\n' s.data).map String.mk

/-- C8 counterexample: the claim makes the attorney firm the first line of
the address field, but the source replaces newlines by vertical bars and
then splits on bars, so a literal bar already present in the field also
acts as a separator.  On the field with first line A|B the projector keeps
only A as the firm. -/
theorem attorney_projection_pipe_counterexample :
    (extract_attorney_data false false false ["Jane Smith"]
        { certifiedRows := [RowOutcome.record
            [("Name", "Jane Smith"), ("Attorney Address", "A|B\nC")]],
          processRows := [] }).attorney_firm = "A"
    ∧ pyStripStr ((newlineLines "A|B\nC").headD "") = "A|B"
    ∧ ("A" : String) ≠ "A|B" := by
  refine ⟨?_, ?_, ?_⟩
  · rfl
  · rfl
  · decide

/-- C8 (amended): for a resolved record with a nonempty attorney-address
field the projector takes the field apart at line breaks, where both a
newline and a literal vertical bar separate lines (the source replaces
newlines by bars and splits on bars): the firm is the stripped first such
line, the address is the stripped join of the remaining lines with single
spaces, and the phone is the leftmost match of the North-American phone
pattern of three digits, three digits and four digits with optional
parentheses and single separator characters, empty when no match exists. -/
theorem attorney_projection_spec :
    ∀ (ds : List String) (page : DocketPage) (d : ServiceRecord),
      ds.isEmpty = false →
      (find_main_defendant ds == "No defendants found") = false →
      find_proof_of_service_fast page (find_main_defendant ds) = some d →
      (dictGet d "service_attorney_address" == "") = false →
      (extract_attorney_data false false false ds page).attorney_firm
          = pyStripStr ((splitAddrLines (dictGet d "service_attorney_address")).headD "")
      ∧ (extract_attorney_data false false false ds page).attorney_address
          = pyStripStr (joinWith " " (splitAddrLines (dictGet d "service_attorney_address")).tail)
      ∧ (extract_attorney_data false false false ds page).attorney_phone
          = (match phoneSearch (dictGet d "service_attorney_address").data with
             | some m => String.mk m
             | none => "") := by
  intro ds page d hde hms hr haddr
  refine ⟨?_, ?_, ?_⟩
  · simp [extract_attorney_data, hde, hms, hr, haddr]
  · simp only [extract_attorney_data, hde, hms, hr, haddr]
    simp
    cases hl : splitAddrLines (dictGet d "service_attorney_address") with
    | nil => exact absurd hl (splitAddrLines_ne_nil _)
    | cons x xs =>
      cases xs with
      | nil => exact fun _ => rfl
      | cons y ys => simp
  · simp [extract_attorney_data, hde, hms, hr, haddr]

/-- C8 witness: the projection applied to a concrete three-line address
with an embedded phone number. -/
theorem attorney_projection_spec_witness :
    (extract_attorney_data false false false ["Jane Smith"]
        { certifiedRows := [RowOutcome.record
            [("Name", "Jane Smith"),
             ("Attorney Name", "John Q. Lawyer"),
             ("Attorney Address", "Doe & Associates\n123 Main St\nColumbus, OH (614) 555-1234")]],
          processRows := [] }).attorney_firm
      = pyStripStr ((splitAddrLines
          (dictGet [("service_attorney_address",
                     "Doe & Associates\n123 Main St\nColumbus, OH (614) 555-1234"),
                    ("service_attorney_name", "John Q. Lawyer"),
                    ("service_name", "Jane Smith"),
                    ("service_delivery_method", "CERTIFIED MAIL")]
            "service_attorney_address")).headD "") :=
  (attorney_projection_spec ["Jane Smith"]
    { certifiedRows := [RowOutcome.record
        [("Name", "Jane Smith"),
         ("Attorney Name", "John Q. Lawyer"),
         ("Attorney Address", "Doe & Associates\n123 Main St\nColumbus, OH (614) 555-1234")]],
      processRows := [] }
    [("service_attorney_address",
      "Doe & Associates\n123 Main St\nColumbus, OH (614) 555-1234"),
     ("service_attorney_name", "John Q. Lawyer"),
     ("service_name", "Jane Smith"),
     ("service_delivery_method", "CERTIFIED MAIL")]
    (by rfl) (by decide) (by rfl) (by rfl)).1

/-- C10 witness: a record scraped with an empty Name detail passes the
primary phase ahead of everything and is labeled Main Defendant. -/
theorem empty_service_name_primary_match_witness :
    primaryMatch "Olivia Green" [("service_name", "")] = true
    ∧ phase1Scan "Olivia Green" "CERTIFIED MAIL"
        (RowOutcome.record [("Name", "")]
          :: [RowOutcome.record [("Name", "Olivia Green")]])
        = some [("service_name", ""), ("service_delivery_method", "CERTIFIED MAIL")]
    ∧ matchLabel "Olivia Green" "" = "Main Defendant" :=
  ⟨empty_service_name_primary_match.1 "Olivia Green" [("service_name", "")] rfl,
   empty_service_name_primary_match.2.1 "Olivia Green" "CERTIFIED MAIL"
     (RowOutcome.record [("Name", "")])
     [("service_name", ""), ("service_delivery_method", "CERTIFIED MAIL")]
     [RowOutcome.record [("Name", "Olivia Green")]] (by rfl) (by rfl),
   empty_service_name_primary_match.2.2 "Olivia Green"⟩
